import Mathlib

/-!
Verification of the Tauri backend shim in `app-mac/src-tauri/src/lib.rs`.

The repository contains three command handlers (`greet`, `set_always_on_top`,
`is_always_on_top`) and an application bootstrap (`run`).  The handlers for
the always-on-top flag are thin wrappers around the host window manager's
accessor calls, which live in the external `tauri` crate; those host calls
are modelled abstractly from the specification, while the wrapper logic is
translated directly from the source.
-/

namespace Angmini

/-- Modelled from the spec: the underlying window-manager error type of the
host runtime (`tauri::Error`), which the source only ever renders with
`.to_string()`.  The spec states that failures surface as non-empty
human-readable strings, so the rendered message is non-empty. -/
structure TauriError where
  msg : String
  msg_nonempty : msg ≠ ""

/-- The `e.to_string()` rendering used by both command wrappers. -/
def TauriError.render (e : TauriError) : String := e.msg

/-- Modelled from the spec: the host window object.  The only state this
repository touches is the transient always-on-top boolean `onTop`; the
fields `supported` and `alive` model whether the platform supports the
attribute and whether the window is still open, and `errCause` is the
underlying cause the window manager reports when it rejects a request. -/
structure Window where
  onTop : Bool
  supported : Bool
  alive : Bool
  errCause : TauriError

/-- Modelled from the spec: the host call `window.set_always_on_top(enabled)`.
It succeeds and updates the flag when the platform supports the attribute
and the window is alive, and otherwise rejects the request with the
underlying cause. -/
def Window.hostSetAlwaysOnTop (w : Window) (enabled : Bool) :
    Except TauriError (Unit × Window) :=
  if w.supported && w.alive then Except.ok ((), { w with onTop := enabled })
  else Except.error w.errCause

/-- Modelled from the spec: the host call `window.is_always_on_top()`, with
the same failure semantics as the setter. -/
def Window.hostIsAlwaysOnTop (w : Window) : Except TauriError Bool :=
  if w.supported && w.alive then Except.ok w.onTop
  else Except.error w.errCause

/-- `fn greet(name: &str) -> String`: the exact `format!` template from the
source. -/
def greet (name : String) : String :=
  "Hello, " ++ name ++ "! You've been greeted from Rust!"

/-- `fn set_always_on_top(window, enabled) -> Result<(), String>`: forwards
to the host call, mapping any error through `e.to_string()`, and returns
`Ok(())` on success.  The updated window is threaded explicitly. -/
def set_always_on_top (window : Window) (enabled : Bool) :
    Except String Unit × Window :=
  match window.hostSetAlwaysOnTop enabled with
  | Except.ok (_, w) => (Except.ok (), w)
  | Except.error e => (Except.error e.render, window)

/-- `fn is_always_on_top(window) -> Result<bool, String>`: forwards to the
host call, mapping any error through `e.to_string()`. -/
def is_always_on_top (window : Window) : Except String Bool :=
  match window.hostIsAlwaysOnTop with
  | Except.ok b => Except.ok b
  | Except.error e => Except.error e.render

/-- An invocation arriving at the runtime's dispatcher, one constructor per
registered command. -/
inductive Command where
  | greetCmd (name : String)
  | setCmd (enabled : Bool)
  | getCmd

/-- The value a command invocation returns to the front-end. -/
inductive CmdResult where
  | strRes (s : String)
  | unitRes (r : Except String Unit)
  | boolRes (r : Except String Bool)

/-- Dispatch of the three registered commands against the window state. -/
def dispatch : Command → Window → CmdResult × Window
  | Command.greetCmd name, w => (CmdResult.strRes (greet name), w)
  | Command.setCmd b, w =>
      match set_always_on_top w b with
      | (r, w2) => (CmdResult.unitRes r, w2)
  | Command.getCmd, w => (CmdResult.boolRes (is_always_on_top w), w)

/-- RPC-visible types of a command signature (the error side of a Result is
always `string` in this code). -/
inductive RpcType where
  | str
  | boolean
  | unitTy
  | resultOf (ok : RpcType)
deriving DecidableEq

/-- A command endpoint as registered with the invocation dispatcher: its
name, its RPC arguments (the injected window handle is not an RPC
argument), and its return type. -/
structure CommandDecl where
  name : String
  args : List (String × RpcType)
  ret : RpcType

/-- The declaration of `greet` in `generate_handler!`. -/
def greetDecl : CommandDecl :=
  { name := "greet", args := [("name", RpcType.str)], ret := RpcType.str }

/-- The declaration of `set_always_on_top` in `generate_handler!`. -/
def setAlwaysOnTopDecl : CommandDecl :=
  { name := "set_always_on_top", args := [("enabled", RpcType.boolean)],
    ret := RpcType.resultOf RpcType.unitTy }

/-- The declaration of `is_always_on_top` in `generate_handler!`. -/
def isAlwaysOnTopDecl : CommandDecl :=
  { name := "is_always_on_top", args := [],
    ret := RpcType.resultOf RpcType.boolean }

/-- The two plugins attached in `run`. -/
inductive Plugin where
  | opener
  | http
deriving DecidableEq

/-- The application builder: the plugins attached so far and the command
handlers registered with the dispatcher. -/
structure Builder where
  plugins : List Plugin
  handlers : List CommandDecl

/-- `tauri::Builder::default()`. -/
def Builder.default : Builder := { plugins := [], handlers := [] }

/-- `.plugin(p)`: attaches one more plugin. -/
def Builder.plugin (b : Builder) (p : Plugin) : Builder :=
  { b with plugins := b.plugins ++ [p] }

/-- `.invoke_handler(generate_handler![...])`: registers the command list. -/
def Builder.invoke_handler (b : Builder) (hs : List CommandDecl) : Builder :=
  { b with handlers := hs }

/-- The builder chain constructed by `run`, exactly as in the source:
default, plugin opener, plugin http, then the three-command handler. -/
def appBuilder : Builder :=
  ((Builder.default.plugin Plugin.opener).plugin Plugin.http).invoke_handler
    [greetDecl, setAlwaysOnTopDecl, isAlwaysOnTopDecl]

/-- How the process ends: normal return, or a panic with a message. -/
inductive ProcessOutcome where
  | normal
  | panicked (msg : String)

/-- `pub fn run()`: builds the application and calls the host runtime's
`.run(ctx)`, whose outcome is external and passed in as `hostRun`; a launch
failure is met with `.expect("error while running tauri application")`,
which panics with that diagnostic followed by the rendering of the cause.
The return type has no error channel: failure is fatal, never returned. -/
def run (hostRun : Builder → Except TauriError Unit) : ProcessOutcome :=
  match hostRun appBuilder with
  | Except.ok _ => ProcessOutcome.normal
  | Except.error e =>
      ProcessOutcome.panicked ("error while running tauri application: " ++ e.render)

/-- A concrete live window on a supporting platform, used as a witness. -/
def okWin : Window :=
  { onTop := false, supported := true, alive := true,
    errCause := { msg := "window destroyed", msg_nonempty := by decide } }

/-- A concrete window whose host rejects the calls, used as a witness. -/
def failWin : Window :=
  { onTop := false, supported := false, alive := true,
    errCause := { msg := "always on top is not supported", msg_nonempty := by decide } }

/-- C1: for every input name string, `greet` returns a formatted greeting
string that contains that name between the two fixed pieces of the greeting
template; being a total function into `String`, it has no side effects and
no failure mode. -/
theorem greet_contains_name_and_template (name : String) :
    ∃ pre post, greet name = pre ++ name ++ post ∧
      pre = "Hello, " ∧ post = "! You've been greeted from Rust!" :=
  ⟨"Hello, ", "! You've been greeted from Rust!", rfl, rfl, rfl⟩

/-- C2: `set_always_on_top` returns `Ok(())` (with the updated window) when
the host call succeeds, and when the host rejects the request it returns the
`to_string` rendering of the underlying cause verbatim, with no retry. -/
theorem set_always_on_top_spec (w : Window) (b : Bool) :
    (∀ w2, w.hostSetAlwaysOnTop b = Except.ok ((), w2) →
      set_always_on_top w b = (Except.ok (), w2)) ∧
    (∀ e, w.hostSetAlwaysOnTop b = Except.error e →
      set_always_on_top w b = (Except.error e.render, w)) := by
  constructor
  · intro w2 h
    simp [set_always_on_top, h]
  · intro e h
    simp [set_always_on_top, h]

/-- Witness for C2: on a live supported window the host call succeeds and
the command returns `Ok(())`. -/
theorem set_always_on_top_spec_witness :
    set_always_on_top okWin true = (Except.ok (), { okWin with onTop := true }) :=
  (set_always_on_top_spec okWin true).1 { okWin with onTop := true } rfl

/-- C3: `is_always_on_top` returns `Ok` of the host's current boolean on
success, on failure returns the `to_string` rendering of the underlying
cause, and the error string for a given underlying cause is identical to
the one the setter produces for that same cause. -/
theorem is_always_on_top_spec (w : Window) :
    (∀ b, w.hostIsAlwaysOnTop = Except.ok b → is_always_on_top w = Except.ok b) ∧
    (∀ e, w.hostIsAlwaysOnTop = Except.error e →
      is_always_on_top w = Except.error e.render) ∧
    (∀ e b, w.hostIsAlwaysOnTop = Except.error e →
      w.hostSetAlwaysOnTop b = Except.error e →
      ∃ m, is_always_on_top w = Except.error m ∧
        (set_always_on_top w b).1 = Except.error m) := by
  refine ⟨?_, ?_, ?_⟩
  · intro b h
    simp [is_always_on_top, h]
  · intro e h
    simp [is_always_on_top, h]
  · intro e b hg hs
    exact ⟨e.render, by simp [is_always_on_top, hg], by simp [set_always_on_top, hs]⟩

/-- Witness for C3: on a live supported window the getter returns the
current flag. -/
theorem is_always_on_top_spec_witness :
    is_always_on_top okWin = Except.ok false :=
  (is_always_on_top_spec okWin).1 false rfl

/-- C4: on a window where the attribute is supported (and the window is
alive), setting the flag to `true` and then querying returns `Ok true`, and
setting to `false` and then querying returns `Ok false`; both set calls
succeed. -/
theorem always_on_top_roundtrip (w : Window)
    (h : w.supported = true ∧ w.alive = true) :
    (set_always_on_top w true).1 = Except.ok () ∧
    is_always_on_top (set_always_on_top w true).2 = Except.ok true ∧
    (set_always_on_top w false).1 = Except.ok () ∧
    is_always_on_top (set_always_on_top w false).2 = Except.ok false := by
  obtain ⟨hs, ha⟩ := h
  simp [set_always_on_top, is_always_on_top,
    Window.hostSetAlwaysOnTop, Window.hostIsAlwaysOnTop, hs, ha]

/-- Witness for C4: the round trip on a concrete live supported window. -/
theorem always_on_top_roundtrip_witness :
    okWin.supported = true ∧ okWin.alive = true ∧
    is_always_on_top (set_always_on_top okWin true).2 = Except.ok true :=
  ⟨rfl, rfl, (always_on_top_roundtrip okWin ⟨rfl, rfl⟩).2.1⟩

/-- C5: for every window, including unsupported or dead ones, the setter and
getter are total functions (they never panic: both are defined by a total
`match` over the host outcome), and every failure comes back as a non-empty
error string. -/
theorem commands_fail_with_nonempty_string (w : Window) (b : Bool) :
    (∀ m, (set_always_on_top w b).1 = Except.error m → m ≠ "") ∧
    (∀ m, is_always_on_top w = Except.error m → m ≠ "") := by
  constructor
  · intro m h
    by_cases hc : (w.supported && w.alive) = true
    · simp [set_always_on_top, Window.hostSetAlwaysOnTop, hc] at h
    · simp [set_always_on_top, Window.hostSetAlwaysOnTop, hc] at h
      rw [← h]
      exact w.errCause.msg_nonempty
  · intro m h
    by_cases hc : (w.supported && w.alive) = true
    · simp [is_always_on_top, Window.hostIsAlwaysOnTop, hc] at h
    · simp [is_always_on_top, Window.hostIsAlwaysOnTop, hc] at h
      rw [← h]
      exact w.errCause.msg_nonempty

/-- Witness for C5: a window whose host rejects the call yields exactly the
rendered non-empty cause. -/
theorem commands_fail_with_nonempty_string_witness :
    (set_always_on_top failWin true).1
      = Except.error "always on top is not supported" ∧
    "always on top is not supported" ≠ "" :=
  ⟨rfl, (commands_fail_with_nonempty_string failWin true).1
    "always on top is not supported" rfl⟩

/-- C6: `greet` is pure and deterministic: dispatching it yields the same
string whatever the window state is, that string is `greet name` itself, and
the window state (in particular its always-on-top flag) is left unchanged. -/
theorem greet_pure_deterministic (s : String) (w w2 : Window) :
    (dispatch (Command.greetCmd s) w).1 = (dispatch (Command.greetCmd s) w2).1 ∧
    (dispatch (Command.greetCmd s) w).1 = CmdResult.strRes (greet s) ∧
    (dispatch (Command.greetCmd s) w).2 = w :=
  ⟨rfl, rfl, rfl⟩

/-- C7: when the host runtime's launch fails with any cause, `run` ends the
process in a panic whose message starts with the source's diagnostic
`"error while running tauri application"`; `run` returns a `ProcessOutcome`
with no error channel, so the failure is never returned as a recoverable
error. -/
theorem run_panics_on_launch_failure (f : Builder → Except TauriError Unit)
    (e : TauriError) (h : f appBuilder = Except.error e) :
    run f = ProcessOutcome.panicked
      ("error while running tauri application: " ++ e.render) ∧
    run f ≠ ProcessOutcome.normal := by
  constructor
  · simp [run, h]
  · simp [run, h]

/-- Witness for C7: a concrete failing launch panics with the diagnostic. -/
theorem run_panics_on_launch_failure_witness :
    run (fun _ => Except.error
        { msg := "runtime exited", msg_nonempty := by decide })
      = ProcessOutcome.panicked
        ("error while running tauri application: " ++ "runtime exited") :=
  (run_panics_on_launch_failure
    (fun _ => Except.error { msg := "runtime exited", msg_nonempty := by decide })
    { msg := "runtime exited", msg_nonempty := by decide } rfl).1

/-- C8: the builder chain in `run` registers exactly the three command
endpoints, in order `greet`, `set_always_on_top`, `is_always_on_top`, with
the signatures `greet(name: string) -> string`,
`set_always_on_top(enabled: bool) -> Result<(), string>` and
`is_always_on_top() -> Result<bool, string>`, and attaches exactly two
plugins. -/
theorem run_registers_three_commands_two_plugins :
    appBuilder.handlers = [greetDecl, setAlwaysOnTopDecl, isAlwaysOnTopDecl] ∧
    appBuilder.handlers.length = 3 ∧
    greetDecl.name = "greet" ∧
    greetDecl.args = [("name", RpcType.str)] ∧
    greetDecl.ret = RpcType.str ∧
    setAlwaysOnTopDecl.name = "set_always_on_top" ∧
    setAlwaysOnTopDecl.args = [("enabled", RpcType.boolean)] ∧
    setAlwaysOnTopDecl.ret = RpcType.resultOf RpcType.unitTy ∧
    isAlwaysOnTopDecl.name = "is_always_on_top" ∧
    isAlwaysOnTopDecl.args = [] ∧
    isAlwaysOnTopDecl.ret = RpcType.resultOf RpcType.boolean ∧
    appBuilder.plugins = [Plugin.opener, Plugin.http] ∧
    appBuilder.plugins.length = 2 :=
  ⟨rfl, rfl, rfl, rfl, rfl, rfl, rfl, rfl, rfl, rfl, rfl, rfl, rfl⟩

/-- C9: frame condition: dispatching any command leaves every part of the
window state other than the transient always-on-top flag unchanged, and the
greeting command and the getter leave the window entirely unchanged; only
the setter may change the flag. -/
theorem commands_frame_condition (c : Command) (w : Window) :
    ((dispatch c w).2).supported = w.supported ∧
    ((dispatch c w).2).alive = w.alive ∧
    ((dispatch c w).2).errCause = w.errCause ∧
    (∀ s, c = Command.greetCmd s → (dispatch c w).2 = w) ∧
    (c = Command.getCmd → (dispatch c w).2 = w) := by
  cases c with
  | greetCmd s =>
    exact ⟨rfl, rfl, rfl, fun _ _ => rfl, fun h => Command.noConfusion h⟩
  | getCmd =>
    exact ⟨rfl, rfl, rfl, fun _ h => Command.noConfusion h, fun _ => rfl⟩
  | setCmd b =>
    refine ⟨?_, ?_, ?_, fun _ h => Command.noConfusion h,
      fun h => Command.noConfusion h⟩ <;>
      by_cases hc : (w.supported && w.alive) = true <;>
        simp [dispatch, set_always_on_top, Window.hostSetAlwaysOnTop, hc]

/-- Witness for C9: dispatching `greet` on a concrete window leaves it
unchanged. -/
theorem commands_frame_condition_witness :
    (dispatch (Command.greetCmd "X") okWin).2 = okWin :=
  (commands_frame_condition (Command.greetCmd "X") okWin).2.2.2.1 "X" rfl

/-- C10: `greet` returns exactly `"Hello, " ++ s ++ "! You've been greeted
from Rust!"`, and the result is non-empty even when the name is empty. -/
theorem greet_exact_format (s : String) :
    greet s = "Hello, " ++ s ++ "! You've been greeted from Rust!" ∧
    greet s ≠ "" := by
  refine ⟨rfl, fun h => ?_⟩
  have hlen := congrArg String.length h
  simp [greet, String.length_append] at hlen
  exact absurd hlen.1.1 (by decide)

end Angmini
